import Mathlib

/-!
Shallow embedding of the Box PDF merger backend (src/app.py) and proofs of
the specification claims about it.

External services (the Box storage backend and the PDF.co conversion
service) are modelled as oracles collected in an `Env` record: each oracle
gives the response of one remote call, with `Except String` standing for
Python exception propagation (the `String` is the exception text that the
orchestrator's catch-all interpolates into its failure message).

Wall-clock time inside the polling loop is modelled abstractly: time
advances by 5 time-units at each `time.sleep(5)` and is measured from the
start of polling, matching the spec's time-unit reading of the loop in
`merge_box_pdfs_backend_logic` (src/app.py lines 445-463).
-/

namespace BoxPdfMerger

/-- A raw item of a Box folder listing: `item.type`, `item.id`, `item.name`
(src/app.py `list_pdf_files_in_box_folder`). -/
structure BoxItem where
  type : String
  id : String
  name : String
deriving DecidableEq, Repr

/-- A listed PDF file reference `{"id": item.id, "name": item.name}`. -/
structure BoxFile where
  id : String
  name : String
deriving DecidableEq, Repr

/-- Python `str.lower()`, as a character-wise map. -/
def pyLower (s : String) : String := ⟨s.data.map Char.toLower⟩

/-- Python `str.endswith(suffix)`. -/
def pyEndsWith (s suffix : String) : Bool := suffix.data.isSuffixOf s.data

/-- The filter of `list_pdf_files_in_box_folder`:
`item.type == 'file' and item.name.lower().endswith('.pdf')`. -/
def isQualifyingPdf (item : BoxItem) : Bool :=
  item.type == "file" && pyEndsWith (pyLower item.name) ".pdf"

/-- Embeds `list_pdf_files_in_box_folder` (src/app.py lines 242-257): iterates the
folder items delivered by the backend, keeps qualifying PDF entries in
listing order; a backend error is re-raised. -/
def list_pdf_files_in_box_folder (folderItems : Except String (List BoxItem)) :
    Except String (List BoxFile) :=
  match folderItems with
  | .error e => .error e
  | .ok items => .ok ((items.filter isQualifyingPdf).map fun it => ⟨it.id, it.name⟩)

/-- Embeds `create_box_shared_link` (src/app.py lines 287-310). The argument is the
backend's response to the get/update_info calls: an exception, or an object
whose `shared_link` field may be absent. The whole body is wrapped in
`try/except Exception: return None`, so every error is swallowed into
`None`; the function itself never raises. -/
def create_box_shared_link (updateResp : Except String (Option String)) :
    Option String :=
  match updateResp with
  | .error _ => none
  | .ok none => none
  | .ok (some url) => some url

/-- Truthiness of an optional JSON string field, as Python evaluates
`'key' in cfg and cfg['key']`: the key must be present and non-empty. -/
def truthyOpt (s : Option String) : Bool :=
  match s with
  | none => false
  | some v => !v.isEmpty

/-- The relevant fields of the `BOX_JWT_CONFIG` descriptor
(src/app.py `initialize_box_client`); `enterpriseID`/`userID` are `none`
when the key is absent from the JSON object. -/
structure JwtConfig where
  clientID : String
  clientSecret : String
  publicKeyID : String
  privateKey : String
  passphrase : Option String
  enterpriseID : Option String
  userID : Option String
deriving DecidableEq, Repr

/-- The authentication subject selected for the JWT auth object. -/
inductive AuthSubject where
  | enterprise (id : String)
  | user (id : String)
deriving DecidableEq, Repr

/-- The `ValueError` message raised when neither subject is configured
(src/app.py line 226). -/
def msgNoAuthType : String :=
  "Neither 'enterpriseID' nor 'userID' found in BOX_JWT_CONFIG. Cannot determine authentication type."

/-- Embeds `initialize_box_client` (src/app.py lines 182-238), modelled up to the
selection of the JWT authentication subject: `enterpriseID` is checked
first, then `userID`, each with Python truthiness; if neither is present
and truthy, a `ValueError` is raised (and re-raised to the caller by the
function's own except block). The SDK `Client`/`JWTAuth` construction is
opaque here; the result records which subject was selected. -/
def initialize_box_client (cfg : JwtConfig) : Except String AuthSubject :=
  if truthyOpt cfg.enterpriseID then
    .ok (.enterprise (cfg.enterpriseID.getD ""))
  else if truthyOpt cfg.userID then
    .ok (.user (cfg.userID.getD ""))
  else
    .error msgNoAuthType

/-- The oracle environment: responses of the two external services as seen
by one run of `merge_box_pdfs_backend_logic`. -/
structure Env where
  /-- Items the Box backend yields when listing the folder, or a raised
  `StorageError` (src/app.py `list_pdf_files_in_box_folder`). -/
  folder_items : Except String (List BoxItem)
  /-- Response of `download_box_file` per file id: content bytes or a raised error. -/
  download_box_file : String → Except String String
  /-- Response of `upload_file_to_pdf_co` per file name and content: staged URL or a
  raised error. -/
  upload_file_to_pdf_co : String → String → Except String String
  /-- Response of `merge_pdfs_pdf_co`: `(job_id, result_url)` or a raised error. -/
  merge_pdfs_pdf_co : Except String (String × String)
  /-- Response of `check_pdf_co_job_status` at the n-th status check (0-indexed):
  `status_data.get('status')` (which is `none` when the response has no
  status field) or a raised transport error. -/
  check_pdf_co_job_status : Nat → Except String (Option String)
  /-- Response of the result download (`requests.get` + `raise_for_status`): merged
  bytes or a raised error. -/
  fetch_merged_result : Except String String
  /-- Response of `upload_file_to_box`: the uploaded file object (`some id`; `none`
  models a falsy object) or a raised error. -/
  upload_file_to_box : Except String (Option String)
  /-- Backend response used by `create_box_shared_link` for the uploaded
  file: error, or an object whose `shared_link` may be absent. -/
  shared_link_update : Except String (Option String)

/-- The result triple of `merge_box_pdfs_backend_logic`:
`(success, message, merged_pdf_url)`. -/
structure MergeOutcome where
  success : Bool
  message : String
  link : Option String
deriving DecidableEq, Repr

/-- Counts of conversion-service calls made during one run: staging
uploads, merge submissions, status checks, and result downloads. -/
structure Calls where
  stages : Nat
  submits : Nat
  polls : Nat
  fetches : Nat
deriving DecidableEq, Repr

def msgNoPdfs : String :=
  "No PDF files found in the specified Box folder or an error occurred during listing."
def msgLessThanTwo : String :=
  "Less than two PDF files found. At least two PDFs are required for merging."
def msgNonePrepared : String :=
  "No PDF files were successfully prepared for merging with PDF.co."
def msgNoJobId : String :=
  "Failed to initiate PDF merge on PDF.co (no job ID)."
def msgTimeout : String :=
  "PDF.co merge job timed out. Please try again."
def msgJobTerminal (status : String) : String :=
  "PDF.co merge job " ++ status ++ "."
def msgNotCompleted : String :=
  "PDF.co merge job did not complete successfully."
def msgUploadFailed : String :=
  "Failed to upload merged PDF back to Box."
def msgLinkFailed (name : String) : String :=
  "PDFs merged and uploaded to Box, but failed to create a shareable link for " ++
    "'" ++ name ++ "'. Check your Box folder!"
def msgSuccess (name : String) : String :=
  "PDFs merged and uploaded successfully to Box as " ++ "'" ++ name ++ "'."
def msgCatchAll (e : String) : String :=
  "An error occurred during the process: " ++ e

/-- One iteration body of the PREPARING loop (src/app.py lines 424-434):
download then stage one file; any exception is caught and the file is
skipped; a falsy staged URL also skips. Returns the staged URL (if any)
and the number of staging calls made (0 or 1). -/
def prepareFile (env : Env) (f : BoxFile) : Option String × Nat :=
  match env.download_box_file f.id with
  | .error _ => (none, 0)
  | .ok content =>
    match env.upload_file_to_pdf_co f.name content with
    | .error _ => (none, 1)
    | .ok url => (if url = "" then none else some url, 1)

/-- The PREPARING loop over the listed files, in listing order: collects
`pdf_co_source_urls` and counts staging calls. -/
def prepareFiles (env : Env) : List BoxFile → List String × Nat
  | [] => ([], 0)
  | f :: rest =>
    let h := prepareFile env f
    let r := prepareFiles env rest
    match h.1 with
    | none => (r.1, h.2 + r.2)
    | some u => (u :: r.1, h.2 + r.2)

/-- The staged URL a file contributes, if its preparation succeeds. -/
def preparedUrl (env : Env) (f : BoxFile) : Option String :=
  (prepareFile env f).1

/-- How the polling loop (src/app.py lines 450-460) was exited. -/
inductive PollExit where
  /-- Exit when `time.time() - start_time > timeout_seconds` at the top of an
  iteration. -/
  | timeout
  /-- Exit when `status in ["failed", "aborted"]`: immediate `return` from inside the
  loop with that status name. -/
  | terminal (status : String)
  /-- The loop finished via `break` (on `"success"`) or because the `while`
  condition became false; carries the final `status` value. -/
  | exited (finalStatus : Option String)
deriving DecidableEq, Repr

/-- The `while status == "working"` loop of `merge_box_pdfs_backend_logic`:
at each iteration, first the elapsed wall-clock time (5 time-units per
completed sleep) is checked against the 300 time-unit budget, then the loop
sleeps 5 time-units and performs status check number `k`. A raised check
error propagates (`.error`). The second component counts status checks.
`fuel` is a structural-recursion bound: every call site uses
`fuel = 301 - elapsed` and `elapsed` grows by 5 while `fuel` shrinks by 1,
so `fuel + elapsed` never decreases and the fuel-exhausted branch is only
reachable with `elapsed > 300`, where returning timeout is exactly the
loop's behaviour. -/
def pollLoopGo (poll : Nat → Except String (Option String)) :
    Nat → Nat → Nat → Except String PollExit × Nat
  | fuel, k, elapsed =>
    if elapsed > 300 then (.ok .timeout, k)
    else
      match fuel with
      | 0 => (.ok .timeout, k)
      | fuel' + 1 =>
        match poll k with
        | .error e => (.error e, k + 1)
        | .ok st =>
          if st = some "success" then (.ok (.exited (some "success")), k + 1)
          else if st = some "failed" then (.ok (.terminal "failed"), k + 1)
          else if st = some "aborted" then (.ok (.terminal "aborted"), k + 1)
          else if st = some "working" then pollLoopGo poll fuel' (k + 1) (elapsed + 5)
          else (.ok (.exited st), k + 1)

/-- The polling loop as entered by the orchestrator: status starts as
`"working"`, zero checks done, zero elapsed time. -/
def pollLoop (poll : Nat → Except String (Option String)) :
    Except String PollExit × Nat :=
  pollLoopGo poll 301 0 0

/-- The tail of `merge_box_pdfs_backend_logic` from the end of the polling
loop onwards (src/app.py lines 450-486), given the staging-call count and
the polling result: the post-loop `if status != "success"` check, result
download, upload back to Box, and shared-link creation. -/
def afterPolling (merged_file_name : String) (env : Env) (stages : Nat)
    (pr : Except String PollExit × Nat) : MergeOutcome × Calls :=
  match pr.1 with
  | .error e => (⟨false, msgCatchAll e, none⟩, ⟨stages, 1, pr.2, 0⟩)
  | .ok .timeout => (⟨false, msgTimeout, none⟩, ⟨stages, 1, pr.2, 0⟩)
  | .ok (.terminal s) => (⟨false, msgJobTerminal s, none⟩, ⟨stages, 1, pr.2, 0⟩)
  | .ok (.exited st) =>
    if st ≠ some "success" then
      (⟨false, msgNotCompleted, none⟩, ⟨stages, 1, pr.2, 0⟩)
    else
      match env.fetch_merged_result with
      | .error e => (⟨false, msgCatchAll e, none⟩, ⟨stages, 1, pr.2, 1⟩)
      | .ok _merged =>
        match env.upload_file_to_box with
        | .error e => (⟨false, msgCatchAll e, none⟩, ⟨stages, 1, pr.2, 1⟩)
        | .ok none => (⟨false, msgUploadFailed, none⟩, ⟨stages, 1, pr.2, 1⟩)
        | .ok (some _fileId) =>
          match create_box_shared_link env.shared_link_update with
          | some url =>
            (⟨true, msgSuccess merged_file_name, some url⟩, ⟨stages, 1, pr.2, 1⟩)
          | none =>
            (⟨false, msgLinkFailed merged_file_name, none⟩, ⟨stages, 1, pr.2, 1⟩)

/-- Embeds `merge_box_pdfs_backend_logic` (src/app.py lines 407-490): the full
orchestrator, returning the outcome triple together with the counts of
conversion-service calls performed. Top-level raised errors land in the
catch-all `except` that formats them into the failure message. -/
def merge_box_pdfs_backend_logic (env : Env) (merged_file_name : String) :
    MergeOutcome × Calls :=
  match list_pdf_files_in_box_folder env.folder_items with
  | .error e => (⟨false, msgCatchAll e, none⟩, ⟨0, 0, 0, 0⟩)
  | .ok box_pdf_files =>
    if box_pdf_files.isEmpty then (⟨false, msgNoPdfs, none⟩, ⟨0, 0, 0, 0⟩)
    else if box_pdf_files.length < 2 then (⟨false, msgLessThanTwo, none⟩, ⟨0, 0, 0, 0⟩)
    else
      let prep := prepareFiles env box_pdf_files
      if prep.1.isEmpty then (⟨false, msgNonePrepared, none⟩, ⟨prep.2, 0, 0, 0⟩)
      else
        match env.merge_pdfs_pdf_co with
        | .error e => (⟨false, msgCatchAll e, none⟩, ⟨prep.2, 1, 0, 0⟩)
        | .ok (job_id, _result_url) =>
          if job_id = "" then (⟨false, msgNoJobId, none⟩, ⟨prep.2, 1, 0, 0⟩)
          else afterPolling merged_file_name env prep.2
            (pollLoop env.check_pdf_co_job_status)

/-- The link the `/merge-pdfs` route passes to the template
(src/app.py line 530): `merged_pdf_url if success else None`. -/
def merge_pdfs_endpoint_link (success : Bool) (merged_pdf_url : Option String) :
    Option String :=
  if success then merged_pdf_url else none

/-! ## Helper lemmas -/

/-- The PREPARING loop collects exactly the successfully prepared staged
URLs, in listing order. -/
lemma prepareFiles_fst (env : Env) (l : List BoxFile) :
    (prepareFiles env l).1 = l.filterMap (preparedUrl env) := by
  induction l with
  | nil => rfl
  | cons f rest ih =>
    simp only [prepareFiles, List.filterMap_cons, preparedUrl]
    cases h : (prepareFile env f).1 <;> simp [h, ih]

/-- One iteration of the polling loop on a `working` status within the time
budget: one more check done, 5 more time-units elapsed. -/
lemma pollLoopGo_step (poll : Nat → Except String (Option String))
    (fuel k elapsed : Nat) (hel : ¬ elapsed > 300)
    (hw : poll k = .ok (some "working")) :
    pollLoopGo poll (fuel + 1) k elapsed = pollLoopGo poll fuel (k + 1) (elapsed + 5) := by
  rw [pollLoopGo]
  simp [hel, hw]

/-- Running the polling loop past a prefix of `working` statuses: after `n`
working checks within the budget the loop state is `n` checks done,
`5 * n` time-units elapsed, `n` fuel consumed. -/
lemma pollLoopGo_reach (poll : Nat → Except String (Option String)) (n : Nat)
    (hw : ∀ j, j < n → poll j = .ok (some "working")) (hn : 5 * n ≤ 300) :
    pollLoopGo poll 301 0 0 = pollLoopGo poll (301 - n) n (5 * n) := by
  induction n with
  | zero => rfl
  | succ m ih =>
    have hm : 5 * m ≤ 300 := by omega
    rw [ih (fun j hj => hw j (by omega)) hm]
    have hfuel : 301 - m = (301 - (m + 1)) + 1 := by omega
    rw [hfuel, pollLoopGo_step poll _ m (5 * m) (by omega) (hw m (by omega))]
    have : 5 * m + 5 = 5 * (m + 1) := by omega
    rw [this]

/-- If every status check answers `working`, the loop always times out. -/
lemma pollLoopGo_all_working (poll : Nat → Except String (Option String))
    (hw : ∀ j, poll j = .ok (some "working")) :
    ∀ fuel k elapsed, (pollLoopGo poll fuel k elapsed).1 = .ok .timeout := by
  intro fuel
  induction fuel with
  | zero =>
    intro k elapsed
    rw [pollLoopGo]
    split <;> rfl
  | succ fuel ih =>
    intro k elapsed
    rw [pollLoopGo]
    by_cases hel : elapsed > 300
    · simp [hel]
    · simp [hel, hw k]
      exact ih (k + 1) (elapsed + 5)

/-- Against an all-`working` status sequence, the loop exits by timeout
after 61 checks: checks happen at elapsed times 0, 5, ..., 300, and the
budget test fires at elapsed time 305. -/
lemma pollLoop_all_working (poll : Nat → Except String (Option String))
    (hw : ∀ j, poll j = .ok (some "working")) :
    pollLoop poll = (.ok .timeout, 61) := by
  rw [pollLoop, pollLoopGo_reach poll 60 (fun j _ => hw j) (by omega)]
  rw [show (301 - 60 : Nat) = 240 + 1 from rfl,
    pollLoopGo_step poll 240 60 300 (by omega) (hw 60)]
  rw [pollLoopGo]
  norm_num

/-- The polling loop at the first non-`working` check: if checks
`0, ..., n-1` answer `working` and check `n` (still within the budget)
answers `st ≠ working`, the loop ends at check `n + 1` with the exit the
loop body assigns to `st`. -/
lemma pollLoop_first_non_working (poll : Nat → Except String (Option String))
    (n : Nat) (st : Option String)
    (hw : ∀ j, j < n → poll j = .ok (some "working")) (hn : 5 * n ≤ 300)
    (hp : poll n = .ok st) (hnw : st ≠ some "working") :
    pollLoop poll =
      (if st = some "success" then (.ok (.exited (some "success")), n + 1)
       else if st = some "failed" then (.ok (.terminal "failed"), n + 1)
       else if st = some "aborted" then (.ok (.terminal "aborted"), n + 1)
       else (.ok (.exited st), n + 1)) := by
  rw [pollLoop, pollLoopGo_reach poll n hw hn]
  have hfuel : 301 - n = (300 - n) + 1 := by omega
  rw [hfuel, pollLoopGo]
  have hel : ¬ 5 * n > 300 := by omega
  simp only [hel, if_false, hp]
  split
  · simp_all
  · split
    · simp_all
    · split
      · simp_all
      · simp_all

/-- After a successful listing with at least two files, a non-empty
prepared set, and a submission that returns a truthy job id, the run is
the polling tail `afterPolling`. -/
lemma merge_reaches_afterPolling (env : Env) (name : String)
    (files : List BoxFile) (jid rurl : String)
    (hlist : list_pdf_files_in_box_folder env.folder_items = .ok files)
    (h2 : 2 ≤ files.length)
    (hprep : (prepareFiles env files).1 ≠ [])
    (hsub : env.merge_pdfs_pdf_co = .ok (jid, rurl))
    (hjid : jid ≠ "") :
    merge_box_pdfs_backend_logic env name =
      afterPolling name env (prepareFiles env files).2
        (pollLoop env.check_pdf_co_job_status) := by
  have hne : files.isEmpty = false := by
    cases files with
    | nil => simp at h2
    | cons f rest => rfl
  have hlt : ¬ files.length < 2 := by omega
  have hpe : (prepareFiles env files).1.isEmpty = false := by
    simpa [List.isEmpty_iff] using hprep
  rw [merge_box_pdfs_backend_logic, hlist]
  simp [hne, hlt, hpe, hsub, hjid]

/-- The polling tail always records exactly the staging count it was given,
one merge submission, and the loop's check count. -/
lemma afterPolling_calls (name : String) (env : Env) (stages : Nat)
    (pr : Except String PollExit × Nat) :
    (afterPolling name env stages pr).2.stages = stages ∧
    (afterPolling name env stages pr).2.submits = 1 ∧
    (afterPolling name env stages pr).2.polls = pr.2 := by
  rw [afterPolling]
  repeat' split
  all_goals exact ⟨rfl, rfl, rfl⟩

lemma afterPolling_timeout (name : String) (env : Env) (stages cnt : Nat) :
    afterPolling name env stages (.ok .timeout, cnt) =
      (⟨false, msgTimeout, none⟩, ⟨stages, 1, cnt, 0⟩) := rfl

lemma afterPolling_terminal (name : String) (env : Env) (stages cnt : Nat)
    (s : String) :
    afterPolling name env stages (.ok (.terminal s), cnt) =
      (⟨false, msgJobTerminal s, none⟩, ⟨stages, 1, cnt, 0⟩) := rfl

lemma afterPolling_exited_other (name : String) (env : Env) (stages cnt : Nat)
    (st : Option String) (h : st ≠ some "success") :
    afterPolling name env stages (.ok (.exited st), cnt) =
      (⟨false, msgNotCompleted, none⟩, ⟨stages, 1, cnt, 0⟩) := by
  rw [afterPolling]
  simp [h]

lemma afterPolling_exited_success_fetches (name : String) (env : Env)
    (stages cnt : Nat) :
    (afterPolling name env stages (.ok (.exited (some "success")), cnt)).2.fetches = 1 := by
  rw [afterPolling]
  simp only [reduceCtorEq, ne_eq, not_true_eq_false, if_false]
  repeat' split
  all_goals rfl

lemma afterPolling_no_link (name : String) (env : Env) (stages cnt : Nat)
    (hf : ∃ m, env.fetch_merged_result = .ok m)
    (hup : ∃ fid, env.upload_file_to_box = .ok (some fid))
    (hlink : create_box_shared_link env.shared_link_update = none) :
    afterPolling name env stages (.ok (.exited (some "success")), cnt) =
      (⟨false, msgLinkFailed name, none⟩, ⟨stages, 1, cnt, 1⟩) := by
  obtain ⟨m, hf⟩ := hf
  obtain ⟨fid, hup⟩ := hup
  rw [afterPolling]
  simp [hf, hup, hlink]

/-! ## Claim theorems -/

/-- C2: for every folder whose listing yields fewer than 2 qualifying PDF
files, `merge_box_pdfs_backend_logic` returns a failure outcome
(success = false, link = none; the "no PDFs found" message when the list is
empty, otherwise the "at least two PDFs required" message) without any
conversion-service operation (no stage, submit, or poll call). -/
theorem C2_fewer_than_two_fails_no_conversion_calls
    (env : Env) (name : String) (items : List BoxItem)
    (hlist : env.folder_items = .ok items)
    (hlt : (items.filter isQualifyingPdf).length < 2) :
    (merge_box_pdfs_backend_logic env name).1.success = false ∧
    (merge_box_pdfs_backend_logic env name).1.link = none ∧
    (merge_box_pdfs_backend_logic env name).1.message =
      (if (items.filter isQualifyingPdf).isEmpty then msgNoPdfs
       else msgLessThanTwo) ∧
    (merge_box_pdfs_backend_logic env name).2 = ⟨0, 0, 0, 0⟩ := by
  have hfiles : list_pdf_files_in_box_folder env.folder_items =
      .ok ((items.filter isQualifyingPdf).map fun it => ⟨it.id, it.name⟩) := by
    rw [hlist, list_pdf_files_in_box_folder]
  rw [merge_box_pdfs_backend_logic, hfiles]
  cases hl : items.filter isQualifyingPdf with
  | nil => simp
  | cons f rest =>
    have hr : rest = [] := by
      rw [hl] at hlt
      simp only [List.length_cons] at hlt
      simpa using Nat.lt_of_succ_lt_succ hlt
    subst hr
    simp

/-- Concrete instance of the C2 theorem: a folder with a single PDF. -/
theorem C2_fewer_than_two_fails_no_conversion_calls_witness :
    (Except.ok [(⟨"file", "1", "a.pdf"⟩ : BoxItem)] :
        Except String (List BoxItem)) = .ok [⟨"file", "1", "a.pdf"⟩] ∧
    ([(⟨"file", "1", "a.pdf"⟩ : BoxItem)].filter isQualifyingPdf).length < 2 ∧
    (merge_box_pdfs_backend_logic
        ⟨.ok [⟨"file", "1", "a.pdf"⟩], fun _ => .ok "", fun _ _ => .ok "",
         .ok ("j", "u"), fun _ => .ok (some "success"), .ok "", .ok (some "9"),
         .ok none⟩ "out.pdf").1.success = false := by
  refine ⟨rfl, by decide, ?_⟩
  exact (C2_fewer_than_two_fails_no_conversion_calls _ "out.pdf"
    [⟨"file", "1", "a.pdf"⟩] rfl (by decide)).1

/-- C4: during PREPARING, every file whose download or staging raises is
skipped and the remaining files are processed in listing order (the staged
list is the in-order `filterMap` of per-file results); given at least two
listed files, the run fails at this step with the "no files prepared"
message exactly when the staged list is empty after attempting every file,
and otherwise proceeds to submission. -/
theorem C4_per_file_failures_skip_and_continue
    (env : Env) (name : String) (files : List BoxFile)
    (hlist : list_pdf_files_in_box_folder env.folder_items = .ok files)
    (h2 : 2 ≤ files.length) :
    (prepareFiles env files).1 = files.filterMap (preparedUrl env) ∧
    (files.filterMap (preparedUrl env) = [] →
      merge_box_pdfs_backend_logic env name =
        (⟨false, msgNonePrepared, none⟩,
         ⟨(prepareFiles env files).2, 0, 0, 0⟩)) ∧
    (files.filterMap (preparedUrl env) ≠ [] →
      (merge_box_pdfs_backend_logic env name).2.submits = 1) := by
  have hchar := prepareFiles_fst env files
  have hne : files.isEmpty = false := by
    cases files with
    | nil => simp at h2
    | cons f rest => rfl
  have hlt : ¬ files.length < 2 := by omega
  refine ⟨hchar, ?_, ?_⟩
  · intro hempty
    have hpe : (prepareFiles env files).1.isEmpty = true := by
      rw [hchar, hempty]
      rfl
    rw [merge_box_pdfs_backend_logic, hlist]
    simp [hne, hlt, hpe]
  · intro hnonempty
    have hprep : (prepareFiles env files).1 ≠ [] := by
      rw [hchar]
      exact hnonempty
    have hpe : (prepareFiles env files).1.isEmpty = false := by
      simpa [List.isEmpty_iff] using hprep
    rw [merge_box_pdfs_backend_logic, hlist]
    simp only [hne, hlt, hpe, Bool.false_eq_true, if_false, ite_false]
    cases hsub : env.merge_pdfs_pdf_co with
    | error e => simp [hsub]
    | ok jr =>
      obtain ⟨jid, rurl⟩ := jr
      by_cases hjid : jid = ""
      · simp [hjid]
      · simp only [hjid, if_false, ite_false]
        exact (afterPolling_calls name env (prepareFiles env files).2
          (pollLoop env.check_pdf_co_job_status)).2.1

/-- Concrete instance of the C4 theorem: two listed files, the first one's
download raises and is skipped, the second stages successfully; the run
continues past PREPARING (one submission). -/
theorem C4_per_file_failures_skip_and_continue_witness :
    let env : Env :=
      ⟨.ok [⟨"file", "1", "a.pdf"⟩, ⟨"file", "2", "b.pdf"⟩],
       fun fid => if fid = "1" then .error "download failed" else .ok "bytes",
       fun _ _ => .ok "https://pdfco.example/tmp",
       .ok ("job-1", "https://pdfco.example/result"),
       fun _ => .ok (some "success"), .ok "merged", .ok (some "9"), .ok (some "link")⟩
    list_pdf_files_in_box_folder env.folder_items =
        .ok [⟨"1", "a.pdf"⟩, ⟨"2", "b.pdf"⟩] ∧
      2 ≤ ([⟨"1", "a.pdf"⟩, ⟨"2", "b.pdf"⟩] : List BoxFile).length ∧
      ([(⟨"1", "a.pdf"⟩ : BoxFile), ⟨"2", "b.pdf"⟩].filterMap (preparedUrl env) =
        ["https://pdfco.example/tmp"]) ∧
      (merge_box_pdfs_backend_logic env "out.pdf").2.submits = 1 := by
  intro env
  refine ⟨rfl, by decide, rfl, ?_⟩
  refine (C4_per_file_failures_skip_and_continue env "out.pdf"
    [⟨"1", "a.pdf"⟩, ⟨"2", "b.pdf"⟩] rfl (by decide)).2.2 ?_
  intro h
  have hx : preparedUrl env ⟨"2", "b.pdf"⟩ = some "https://pdfco.example/tmp" := rfl
  have hy : preparedUrl env ⟨"1", "a.pdf"⟩ = none := rfl
  simp [List.filterMap_cons, hx, hy] at h

/-- C3: when every status check answers `working`, the polling loop of
`merge_box_pdfs_backend_logic` terminates once the 300-time-unit wall-clock
budget (5 time-units per sleep, measured from first submission) is
exceeded, returning the timeout failure outcome after exactly 61 checks —
it never runs forever. -/
theorem C3_always_working_times_out
    (env : Env) (name : String) (files : List BoxFile) (jid rurl : String)
    (hlist : list_pdf_files_in_box_folder env.folder_items = .ok files)
    (hlen : 2 ≤ files.length)
    (hprep : (prepareFiles env files).1 ≠ [])
    (hsub : env.merge_pdfs_pdf_co = .ok (jid, rurl))
    (hjid : jid ≠ "")
    (hpoll : ∀ k, env.check_pdf_co_job_status k = .ok (some "working")) :
    (merge_box_pdfs_backend_logic env name).1 = ⟨false, msgTimeout, none⟩ ∧
    (merge_box_pdfs_backend_logic env name).2.polls = 61 := by
  rw [merge_reaches_afterPolling env name files jid rurl hlist hlen hprep hsub hjid,
    pollLoop_all_working env.check_pdf_co_job_status hpoll, afterPolling_timeout]
  exact ⟨rfl, rfl⟩

/-- Concrete instance of the C3 theorem: two PDFs, submission succeeds, and
the status sequence is constantly `working`. -/
theorem C3_always_working_times_out_witness :
    let env : Env :=
      ⟨.ok [⟨"file", "1", "a.pdf"⟩, ⟨"file", "2", "b.pdf"⟩],
       fun _ => .ok "bytes", fun _ _ => .ok "https://pdfco.example/tmp",
       .ok ("job-1", "https://pdfco.example/result"),
       fun _ => .ok (some "working"), .ok "merged", .ok (some "9"), .ok none⟩
    (merge_box_pdfs_backend_logic env "out.pdf").1 = ⟨false, msgTimeout, none⟩ ∧
    (merge_box_pdfs_backend_logic env "out.pdf").2.polls = 61 := by
  intro env
  exact C3_always_working_times_out env "out.pdf" [⟨"1", "a.pdf"⟩, ⟨"2", "b.pdf"⟩]
    "job-1" "https://pdfco.example/result" rfl (by decide) (by decide) rfl
    (by decide) (fun _ => rfl)

/-- C5: when the status checks answer `working`, `working`, `success`, the
polling loop performs exactly 3 checks, exits with the success status, and
the run proceeds to fetch the merged result (one result download). -/
theorem C5_three_polls_then_success
    (env : Env) (name : String) (files : List BoxFile) (jid rurl : String)
    (hlist : list_pdf_files_in_box_folder env.folder_items = .ok files)
    (hlen : 2 ≤ files.length)
    (hprep : (prepareFiles env files).1 ≠ [])
    (hsub : env.merge_pdfs_pdf_co = .ok (jid, rurl))
    (hjid : jid ≠ "")
    (hp0 : env.check_pdf_co_job_status 0 = .ok (some "working"))
    (hp1 : env.check_pdf_co_job_status 1 = .ok (some "working"))
    (hp2 : env.check_pdf_co_job_status 2 = .ok (some "success")) :
    pollLoop env.check_pdf_co_job_status = (.ok (.exited (some "success")), 3) ∧
    (merge_box_pdfs_backend_logic env name).2.polls = 3 ∧
    (merge_box_pdfs_backend_logic env name).2.fetches = 1 := by
  have hw : ∀ j, j < 2 → env.check_pdf_co_job_status j = .ok (some "working") := by
    intro j hj
    rcases j with _ | _ | j
    · exact hp0
    · exact hp1
    · omega
  have hpl := pollLoop_first_non_working env.check_pdf_co_job_status 2
    (some "success") hw (by omega) hp2 (by decide)
  simp only [reduceIte, Nat.reduceAdd] at hpl
  refine ⟨hpl, ?_, ?_⟩
  · rw [merge_reaches_afterPolling env name files jid rurl hlist hlen hprep hsub hjid]
    rw [(afterPolling_calls name env (prepareFiles env files).2
      (pollLoop env.check_pdf_co_job_status)).2.2, hpl]
  · rw [merge_reaches_afterPolling env name files jid rurl hlist hlen hprep hsub hjid,
      hpl]
    exact afterPolling_exited_success_fetches name env (prepareFiles env files).2 3

/-- Concrete instance of the C5 theorem. -/
theorem C5_three_polls_then_success_witness :
    let env : Env :=
      ⟨.ok [⟨"file", "1", "a.pdf"⟩, ⟨"file", "2", "b.pdf"⟩],
       fun _ => .ok "bytes", fun _ _ => .ok "https://pdfco.example/tmp",
       .ok ("job-1", "https://pdfco.example/result"),
       fun k => .ok (some (if k < 2 then "working" else "success")),
       .ok "merged", .ok (some "9"), .ok (some "https://box.example/s/xyz")⟩
    pollLoop env.check_pdf_co_job_status = (.ok (.exited (some "success")), 3) ∧
    (merge_box_pdfs_backend_logic env "out.pdf").2.polls = 3 ∧
    (merge_box_pdfs_backend_logic env "out.pdf").2.fetches = 1 := by
  intro env
  exact C5_three_polls_then_success env "out.pdf" [⟨"1", "a.pdf"⟩, ⟨"2", "b.pdf"⟩]
    "job-1" "https://pdfco.example/result" rfl (by decide) (by decide) rfl
    (by decide) rfl rfl rfl

/-- C6: if the first non-`working` status check (still within the budget)
answers `failed` or `aborted`, the run immediately returns a failure whose
message names that status, having performed no further checks after that
poll (exactly `n + 1` checks in total). -/
theorem C6_terminal_status_immediate_failure
    (env : Env) (name : String) (files : List BoxFile) (jid rurl : String)
    (n : Nat) (s : String)
    (hlist : list_pdf_files_in_box_folder env.folder_items = .ok files)
    (hlen : 2 ≤ files.length)
    (hprep : (prepareFiles env files).1 ≠ [])
    (hsub : env.merge_pdfs_pdf_co = .ok (jid, rurl))
    (hjid : jid ≠ "")
    (hw : ∀ j, j < n → env.check_pdf_co_job_status j = .ok (some "working"))
    (hn : 5 * n ≤ 300)
    (hs : s = "failed" ∨ s = "aborted")
    (hpn : env.check_pdf_co_job_status n = .ok (some s)) :
    (merge_box_pdfs_backend_logic env name).1 =
      ⟨false, msgJobTerminal s, none⟩ ∧
    (merge_box_pdfs_backend_logic env name).2.polls = n + 1 := by
  have hpl := pollLoop_first_non_working env.check_pdf_co_job_status n (some s) hw hn hpn
  rw [merge_reaches_afterPolling env name files jid rurl hlist hlen hprep hsub hjid]
  rcases hs with hs | hs <;> subst hs
  · have hpl2 := hpl (by decide)
    simp only [Option.some.injEq, String.reduceEq, reduceIte] at hpl2
    rw [hpl2, afterPolling_terminal]
    exact ⟨rfl, rfl⟩
  · have hpl2 := hpl (by decide)
    simp only [Option.some.injEq, String.reduceEq, reduceIte] at hpl2
    rw [hpl2, afterPolling_terminal]
    exact ⟨rfl, rfl⟩

/-- Concrete instance of the C6 theorem: the second status check answers
`aborted`. -/
theorem C6_terminal_status_immediate_failure_witness :
    let env : Env :=
      ⟨.ok [⟨"file", "1", "a.pdf"⟩, ⟨"file", "2", "b.pdf"⟩],
       fun _ => .ok "bytes", fun _ _ => .ok "https://pdfco.example/tmp",
       .ok ("job-1", "https://pdfco.example/result"),
       fun k => .ok (some (if k = 0 then "working" else "aborted")),
       .ok "merged", .ok (some "9"), .ok (some "https://box.example/s/xyz")⟩
    (merge_box_pdfs_backend_logic env "out.pdf").1 =
      ⟨false, msgJobTerminal "aborted", none⟩ ∧
    (merge_box_pdfs_backend_logic env "out.pdf").2.polls = 2 := by
  intro env
  refine C6_terminal_status_immediate_failure env "out.pdf"
    [⟨"1", "a.pdf"⟩, ⟨"2", "b.pdf"⟩] "job-1" "https://pdfco.example/result" 1
    "aborted" rfl (by decide) (by decide) rfl (by decide) ?_ (by omega)
    (Or.inr rfl) rfl
  intro j hj
  rcases j with _ | j
  · rfl
  · omega

/-- C10: if the first non-`working` status check (still within the budget)
returns a value outside {working, success, failed, aborted} — including
`none`, which `check_pdf_co_job_status` produces when the response lacks a
status field — the polling loop exits without raising and the run returns
the "did not complete successfully" failure outcome, with no further
status checks after that poll. -/
theorem C10_unknown_status_exits_loop_with_failure
    (env : Env) (name : String) (files : List BoxFile) (jid rurl : String)
    (n : Nat) (st : Option String)
    (hlist : list_pdf_files_in_box_folder env.folder_items = .ok files)
    (hlen : 2 ≤ files.length)
    (hprep : (prepareFiles env files).1 ≠ [])
    (hsub : env.merge_pdfs_pdf_co = .ok (jid, rurl))
    (hjid : jid ≠ "")
    (hw : ∀ j, j < n → env.check_pdf_co_job_status j = .ok (some "working"))
    (hn : 5 * n ≤ 300)
    (hst : env.check_pdf_co_job_status n = .ok st)
    (hw1 : st ≠ some "working") (hs1 : st ≠ some "success")
    (hf1 : st ≠ some "failed") (ha1 : st ≠ some "aborted") :
    (merge_box_pdfs_backend_logic env name).1 =
      ⟨false, msgNotCompleted, none⟩ ∧
    (merge_box_pdfs_backend_logic env name).2.polls = n + 1 := by
  have hpl := pollLoop_first_non_working env.check_pdf_co_job_status n st hw hn hst hw1
  rw [if_neg hs1, if_neg hf1, if_neg ha1] at hpl
  rw [merge_reaches_afterPolling env name files jid rurl hlist hlen hprep hsub hjid,
    hpl, afterPolling_exited_other name env _ _ st hs1]
  exact ⟨rfl, rfl⟩

/-- Concrete instance of the C10 theorem: the first status check returns a
response without a status field (`none`). -/
theorem C10_unknown_status_exits_loop_with_failure_witness :
    let env : Env :=
      ⟨.ok [⟨"file", "1", "a.pdf"⟩, ⟨"file", "2", "b.pdf"⟩],
       fun _ => .ok "bytes", fun _ _ => .ok "https://pdfco.example/tmp",
       .ok ("job-1", "https://pdfco.example/result"),
       fun _ => .ok none, .ok "merged", .ok (some "9"),
       .ok (some "https://box.example/s/xyz")⟩
    (merge_box_pdfs_backend_logic env "out.pdf").1 =
      ⟨false, msgNotCompleted, none⟩ ∧
    (merge_box_pdfs_backend_logic env "out.pdf").2.polls = 1 := by
  intro env
  exact C10_unknown_status_exits_loop_with_failure env "out.pdf"
    [⟨"1", "a.pdf"⟩, ⟨"2", "b.pdf"⟩] "job-1" "https://pdfco.example/result" 0
    none rfl (by decide) (by decide) rfl (by decide) (fun j hj => absurd hj (by omega))
    (by omega) rfl (by decide) (by decide) (by decide) (by decide)

/-- A run in which listing (two qualifying PDFs), preparation, merge
submission, polling (immediate success), result download, and upload back
to Box all succeed, but shared-link creation yields no URL. -/
def envNoLink : Env :=
  ⟨.ok [⟨"file", "1", "a.pdf"⟩, ⟨"file", "2", "b.pdf"⟩],
   fun _ => .ok "bytes", fun _ _ => .ok "https://pdfco.example/tmp",
   .ok ("job-1", "https://pdfco.example/result"),
   fun _ => .ok (some "success"), .ok "merged", .ok (some "9"), .ok none⟩

/-- C1 counterexample: on a run where everything succeeds except that
shared-link creation yields no URL, the outcome has `success = false` —
not `success = true` as the claim states. The code reports this degraded
case as a failure (src/app.py line 484). -/
theorem C1_counterexample :
    (merge_box_pdfs_backend_logic envNoLink "out.pdf").1 =
      ⟨false, msgLinkFailed "out.pdf", none⟩ ∧
    ¬ (merge_box_pdfs_backend_logic envNoLink "out.pdf").1.success = true := by
  refine ⟨by decide, ?_⟩
  intro h
  rw [show (merge_box_pdfs_backend_logic envNoLink "out.pdf").1.success = false
    from by decide] at h
  exact Bool.false_ne_true h

/-- C1 (amended): for every run in which listing, preparation, merge,
result download, and upload back to storage all succeed but shared-link
creation yields no URL, the Merge Outcome has `success = false` and
`link = none`, with the message indicating the missing link ("merged and
uploaded ... but failed to create a shareable link"). -/
theorem C1_no_link_is_degraded_failure
    (env : Env) (name : String) (files : List BoxFile) (jid rurl : String)
    (hlist : list_pdf_files_in_box_folder env.folder_items = .ok files)
    (hlen : 2 ≤ files.length)
    (hprep : (prepareFiles env files).1 ≠ [])
    (hsub : env.merge_pdfs_pdf_co = .ok (jid, rurl))
    (hjid : jid ≠ "")
    (hpoll : (pollLoop env.check_pdf_co_job_status).1 =
      .ok (.exited (some "success")))
    (hfetch : ∃ m, env.fetch_merged_result = .ok m)
    (hupload : ∃ fid, env.upload_file_to_box = .ok (some fid))
    (hlink : create_box_shared_link env.shared_link_update = none) :
    (merge_box_pdfs_backend_logic env name).1 =
      ⟨false, msgLinkFailed name, none⟩ := by
  rw [merge_reaches_afterPolling env name files jid rurl hlist hlen hprep hsub hjid]
  rcases hpr : pollLoop env.check_pdf_co_job_status with ⟨r, cnt⟩
  rw [hpr] at hpoll
  simp only at hpoll
  subst hpoll
  rw [afterPolling_no_link name env _ cnt hfetch hupload hlink]

/-- Concrete instance of the amended C1 theorem on `envNoLink`. -/
theorem C1_no_link_is_degraded_failure_witness :
    (merge_box_pdfs_backend_logic envNoLink "out.pdf").1 =
      ⟨false, msgLinkFailed "out.pdf", none⟩ :=
  C1_no_link_is_degraded_failure envNoLink "out.pdf"
    [⟨"1", "a.pdf"⟩, ⟨"2", "b.pdf"⟩] "job-1" "https://pdfco.example/result"
    rfl (by decide) (by decide) rfl (by decide) rfl ⟨"merged", rfl⟩ ⟨"9", rfl⟩ rfl

/-- C7 counterexample: a transport error during the shared-link call does
not raise to the caller — `create_box_shared_link` swallows it and returns
`none` (src/app.py lines 308-310), so "returns `None` exactly when the
backend responds without a link" is false: here it returns `none` on a
transport error as well. -/
theorem C7_counterexample :
    create_box_shared_link (.error "transport error") = none ∧
    (Except.error "transport error" : Except String (Option String)) ≠
      .ok none := by
  refine ⟨rfl, ?_⟩
  intro h
  exact Except.noConfusion h

/-- C7 (amended): `create_box_shared_link` never raises: it returns `none`
both when the backend responds without a link and when any error (including
a transport error) occurs during the call, and returns the URL exactly when
the backend responds with one. -/
theorem C7_shared_link_soft_failure :
    (∀ e : String, create_box_shared_link (.error e) = none) ∧
    create_box_shared_link (.ok none) = none ∧
    (∀ u : String, create_box_shared_link (.ok (some u)) = some u) :=
  ⟨fun _ => rfl, rfl, fun _ => rfl⟩

/-- C8: `initialize_box_client` fails with the configuration `ValueError`
when the credential descriptor contains neither a truthy `enterpriseID` nor
a truthy `userID`; when one is present it selects the corresponding
authentication subject, with `enterpriseID` checked first. -/
theorem C8_auth_subject_selection (cfg : JwtConfig) :
    (truthyOpt cfg.enterpriseID = false → truthyOpt cfg.userID = false →
      initialize_box_client cfg = .error msgNoAuthType) ∧
    (∀ eid, cfg.enterpriseID = some eid → eid ≠ "" →
      initialize_box_client cfg = .ok (.enterprise eid)) ∧
    (truthyOpt cfg.enterpriseID = false →
      ∀ uid, cfg.userID = some uid → uid ≠ "" →
        initialize_box_client cfg = .ok (.user uid)) := by
  refine ⟨?_, ?_, ?_⟩
  · intro he hu
    rw [initialize_box_client, he, hu]
    rfl
  · intro eid heid hne
    have hie : eid.isEmpty = false := by
      cases hb : eid.isEmpty with
      | false => rfl
      | true => exact absurd ((String.isEmpty_iff eid).mp hb) hne
    have ht : truthyOpt cfg.enterpriseID = true := by
      rw [heid, truthyOpt, hie]
      rfl
    rw [initialize_box_client, ht, heid]
    rfl
  · intro he uid huid hne
    have hie : uid.isEmpty = false := by
      cases hb : uid.isEmpty with
      | false => rfl
      | true => exact absurd ((String.isEmpty_iff uid).mp hb) hne
    have ht : truthyOpt cfg.userID = true := by
      rw [huid, truthyOpt, hie]
      rfl
    rw [initialize_box_client, he, ht, huid]
    rfl

/-- Concrete instances of the C8 theorem: no subject, enterprise subject,
user subject. -/
theorem C8_auth_subject_selection_witness :
    initialize_box_client ⟨"c", "s", "k", "p", none, none, none⟩ =
      .error msgNoAuthType ∧
    initialize_box_client ⟨"c", "s", "k", "p", none, some "ent1", none⟩ =
      .ok (.enterprise "ent1") ∧
    initialize_box_client ⟨"c", "s", "k", "p", none, none, some "usr1"⟩ =
      .ok (.user "usr1") :=
  ⟨(C8_auth_subject_selection _).1 rfl rfl,
   (C8_auth_subject_selection _).2.1 "ent1" rfl (by decide),
   (C8_auth_subject_selection _).2.2 (by rfl) "usr1" rfl (by decide)⟩

/-- C9: for every run, the outcome's shared-link component is present if
and only if its success flag is true (every failure return carries
`link = none`), and the `/merge-pdfs` route's link suppression
(`merged_pdf_url if success else None`) therefore never changes the link. -/
theorem C9_success_iff_link (env : Env) (name : String) :
    ((merge_box_pdfs_backend_logic env name).1.success = true ↔
      ((merge_box_pdfs_backend_logic env name).1.link).isSome = true) ∧
    merge_pdfs_endpoint_link (merge_box_pdfs_backend_logic env name).1.success
        (merge_box_pdfs_backend_logic env name).1.link =
      (merge_box_pdfs_backend_logic env name).1.link := by
  have key : ∀ p : MergeOutcome × Calls,
      p = merge_box_pdfs_backend_logic env name →
      (p.1.success = true ↔ p.1.link.isSome = true) ∧
      merge_pdfs_endpoint_link p.1.success p.1.link = p.1.link := by
    intro p hp
    rw [merge_box_pdfs_backend_logic] at hp
    unfold afterPolling at hp
    repeat' split at hp
    all_goals subst hp
    all_goals simp [merge_pdfs_endpoint_link]
    all_goals repeat' split
    all_goals simp
  exact key _ rfl

/-- Concrete instance of the C9 theorem on the no-link run. -/
theorem C9_success_iff_link_witness :
    ((merge_box_pdfs_backend_logic envNoLink "out.pdf").1.success = true ↔
      ((merge_box_pdfs_backend_logic envNoLink "out.pdf").1.link).isSome = true) ∧
    merge_pdfs_endpoint_link
        (merge_box_pdfs_backend_logic envNoLink "out.pdf").1.success
        (merge_box_pdfs_backend_logic envNoLink "out.pdf").1.link =
      (merge_box_pdfs_backend_logic envNoLink "out.pdf").1.link :=
  C9_success_iff_link envNoLink "out.pdf"

end BoxPdfMerger
